import Mathlib

/-!
Verification development for the roadrunner NATS jobs driver
(package natsjobs: src/natsjobs/unpack.go with the Driver lifecycle,
src/natsjobs/config.go, src/plugin.go).

The Go code is embedded shallowly: pure computations become Lean
functions; the NATS JetStream side effects (publish, delete) become an
explicit effect state threaded through the functions; calls into
external collaborators (goccy json marshalling, the Configurer
section decoding, the subscription setup in the listener) become
function parameters or interface-boundary models, documented at each
definition.  Machine integers are Nat/Int with explicit reduction
modulo 2^w where the Go code can overflow.
-/

namespace Natsjobs

/-- Header map as in nats.Header / http.Header: a map from header name to an
ordered list of values, modelled as an association list. -/
abbrev Header := List (String × List String)

/-- Sentinel constant from unpack.go: `auto string = "deduced_by_rr"`, used in
consume-all mode for the job name and the pipeline name. -/
def auto : String := "deduced_by_rr"

/-- Options of an Item.  The struct declaration itself lives in a file absent
from src (item.go); its fields are reconstructed from their uses in
unpack.go (`&Options\x7bPriority: 10, Pipeline: auto\x7d`) and requeue
(`item.Options.Delay`, `item.Options.seq`) and from the spec data model §3:
priority, pipeline name, delay seconds, and the stream-sequence token `seq`
used for deletion.  Go zero values are 0 and the empty string. -/
structure Options where
  priority : Int
  pipeline : String
  delay : Int
  seq : Nat
deriving DecidableEq, Repr

/-- Item exchanged between the queue abstraction and the wire.  The struct
declaration lives in the absent item.go; fields are reconstructed from their
uses in unpack.go (`item.Job`, `item.Ident`, `item.Payload`, `item.Headers`,
`item.Options`) and the spec data model §3.  `options` is a pointer in Go,
hence `Option Options` here (nil pointer = `none`). -/
structure Item where
  job : String
  ident : String
  payload : String
  headers : Header
  options : Option Options
deriving DecidableEq, Repr

/-- Go zero value of Item, the state of `item := &Item\x7b\x7d` before
json.Unmarshal fills it. -/
def Item.zero : Item :=
  { job := "", ident := "", payload := "", headers := [], options := none }

/-- Delivery metadata of a consumed JetStream message
(nats.MsgMetadata.Sequence): the consumer sequence and the stream sequence. -/
structure MsgMetadata where
  consumerSeq : Nat
  streamSeq : Nat
deriving DecidableEq, Repr

/-- Transport message (nats.Msg): body bytes (modelled as a string, as the Go
code itself converts with `string(m.Data)`) and the header map. -/
structure Msg where
  data : String
  header : Header
deriving DecidableEq, Repr

/-- Embedding of Driver.unpack (src/natsjobs/unpack.go).  `consumeAll` is the
Driver's consume-all flag.  The goccy `json.Unmarshal(m.Data, item)` call is
external to this repository, so it enters as the parameter `decode`: the
outcome of unmarshalling a message body into a fresh Item.  In consume-all
mode the code synthesizes the Item itself: job name `auto`, identity
`fmt.Sprintf("%d:%d", meta.Sequence.Consumer, meta.Sequence.Stream)`, raw
payload, headers copied, and `&Options\x7bPriority: 10, Pipeline: auto\x7d`
(all other Options fields keep their Go zero values). -/
def unpack (consumeAll : Bool) (decode : String → Except String Item)
    (m : Msg) (meta : MsgMetadata) : Except String Item :=
  if consumeAll then
    .ok { job := auto
          ident := toString meta.consumerSeq ++ ":" ++ toString meta.streamSeq
          payload := m.data
          headers := m.header
          options := some { priority := 10, pipeline := auto, delay := 0, seq := 0 } }
  else
    decode m.data

/-- Formalisation of the claimed Unpacker invariant at one unpack call: every
successfully returned Item has non-nil options, and its recorded stream
sequence token is populated from the consumed message (equals the message's
stream sequence, the token Driver.requeue later deletes by). -/
def unpackInvariant (consumeAll : Bool) (decode : String → Except String Item)
    (m : Msg) (meta : MsgMetadata) : Prop :=
  ∀ i, unpack consumeAll decode m meta = .ok i →
    ∃ o, i.options = some o ∧ o.seq = meta.streamSeq

/-- Decoder standing in for json.Unmarshal in concrete instances where the
decode path is not taken. -/
def decodeUnused : String → Except String Item := fun _ => .error "unused"

/-- Concrete message used in counterexamples and witnesses. -/
def msg0 : Msg := { data := "raw-bytes", header := [("H", ["v1", "v2"])] }

/-- Concrete metadata with consumer sequence 3 and stream sequence 7. -/
def meta37 : MsgMetadata := { consumerSeq := 3, streamSeq := 7 }

/-- Pipeline at the jobs.Pipeline interface boundary (spec §6): read-only
accessors for name, driver tag, priority, and named string/bool/int options
with caller-supplied defaults, the options modelled as association lists. -/
structure Pipeline where
  name : String
  driver : String
  priority : Int
  stringOpts : List (String × String)
  boolOpts : List (String × Bool)
  intOpts : List (String × Int)
deriving DecidableEq, Repr

/-- pipe.String(key, default). -/
def Pipeline.str (p : Pipeline) (k : String) (d : String) : String :=
  (p.stringOpts.lookup k).getD d

/-- pipe.Bool(key, default). -/
def Pipeline.bool (p : Pipeline) (k : String) (d : Bool) : Bool :=
  (p.boolOpts.lookup k).getD d

/-- pipe.Int(key, default). -/
def Pipeline.int (p : Pipeline) (k : String) (d : Int) : Int :=
  (p.intOpts.lookup k).getD d

/-- Runtime state of the Driver relevant to the lifecycle machine:
the atomic `listeners` counter (a Go uint32), the subscription handle
`sub` (a pointer, nil = `none`), the atomically stored bound pipeline,
and the immutable `subject` snapshot field used by State. -/
structure DriverState where
  listeners : Nat
  sub : Option Nat
  pipeline : Pipeline
  subject : String
deriving DecidableEq, Repr

/-- Observable steps taken by the lifecycle methods, in program order:
incrementing/decrementing the listener counter, calling listenerInit
(creating the subscription/consumer), starting the worker goroutine via
listenerStart, draining the subscription, and sending on the stop channel. -/
inductive Event where
  | counterIncr
  | counterDecr
  | listenerInitCall
  | workerStart
  | subDrain
  | stopSignal
deriving DecidableEq, Repr

/-- Embedding of Driver.Run (src/natsjobs/unpack.go).  The body of
listenerInit lives in the absent listener.go; its outcome enters as the
parameter `initRes` (on success the created subscription handle, which
listenerInit stores into c.sub).  Program order from the source: pipeline
name check, `l == 1` early success return, `atomic.AddUint32(&c.listeners, 1)`,
`c.listenerInit()` (error returned as is, wrapped with the op), then
`c.listenerStart()`.  The returned event list records the steps taken in
order. -/
def Run (s : DriverState) (p : Pipeline) (initRes : Except String Nat) :
    Except String Unit × DriverState × List Event :=
  if s.pipeline.name ≠ p.name then
    (.error ("no such pipeline registered: " ++ s.pipeline.name), s, [])
  else if s.listeners = 1 then
    (.ok (), s, [])
  else
    let s1 : DriverState := { s with listeners := (s.listeners + 1) % 2 ^ 32 }
    match initRes with
    | .error e => (.error e, s1, [.counterIncr, .listenerInitCall])
    | .ok h =>
        (.ok (), { s1 with sub := some h },
          [.counterIncr, .listenerInitCall, .workerStart])

/-- Embedding of Driver.Resume (src/natsjobs/unpack.go).  Program order from
the source: pipeline name check, `l == 1` already-active error,
`c.listenerInit()` (error returned unwrapped), `c.listenerStart()`, and only
then `atomic.AddUint32(&c.listeners, 1)`. -/
def Resume (s : DriverState) (p : String) (initRes : Except String Nat) :
    Except String Unit × DriverState × List Event :=
  if s.pipeline.name ≠ p then
    (.error ("no such pipeline: " ++ s.pipeline.name), s, [])
  else if s.listeners = 1 then
    (.error "nats listener is already in the active state", s, [])
  else
    match initRes with
    | .error e => (.error e, s, [.listenerInitCall])
    | .ok h =>
        (.ok (), { s with sub := some h, listeners := (s.listeners + 1) % 2 ^ 32 },
          [.listenerInitCall, .workerStart, .counterIncr])

/-- Embedding of Driver.Pause (src/natsjobs/unpack.go).  Program order from
the source: pipeline name check, `l == 0` no-active-listeners error,
`atomic.AddUint32(&c.listeners, ^uint32(0))` (a uint32 decrement by adding
2^32 - 1), best-effort `c.sub.Drain()` when the handle is non-nil (a drain
error is only logged), the blocking send on c.stopCh, and `c.sub = nil`. -/
def Pause (s : DriverState) (p : String) :
    Except String Unit × DriverState × List Event :=
  if s.pipeline.name ≠ p then
    (.error ("no such pipeline: " ++ s.pipeline.name), s, [])
  else if s.listeners = 0 then
    (.error "no active listeners, nothing to pause", s, [])
  else
    (.ok (),
      { s with listeners := (s.listeners + (2 ^ 32 - 1)) % 2 ^ 32, sub := none },
      .counterDecr ::
        (if s.sub.isSome then [Event.subDrain] else []) ++ [Event.stopSignal])

/-- Consumer info at the nats.Subscription.ConsumerInfo boundary: the two
fields State reads, NumAckPending and NumWaiting. -/
structure ConsumerInfo where
  numAckPending : Nat
  numWaiting : Nat
deriving DecidableEq, Repr

/-- Report struct jobs.State, the fields the driver fills. -/
structure JobsState where
  pipeline : String
  priority : Nat
  driver : String
  queue : String
  ready : Bool
  active : Int
  reserved : Int
  delayed : Int
deriving DecidableEq, Repr

/-- Embedding of the helper `ready` (src/natsjobs/unpack.go): `r > 0`. -/
def ready (r : Nat) : Bool :=
  decide (0 < r)

/-- Embedding of Driver.State (src/natsjobs/unpack.go).  The report is first
built with Ready computed from the listener counter alone
(`ready(atomic.LoadUint32(&c.listeners))`) and Priority as the Go conversion
`uint64(pipe.Priority())` (reduction of the int64 modulo 2^64).  Only when
c.sub is non-nil is `c.sub.ConsumerInfo()` consulted; its outcome enters as
the parameter `ciRes` (the Go call returns a possibly-nil pointer plus an
error).  A query error is returned to the caller as is (with a nil report);
a nil info leaves the extra fields at their zero values. -/
def State (s : DriverState) (ciRes : Except String (Option ConsumerInfo)) :
    Except String JobsState :=
  let st : JobsState :=
    { pipeline := s.pipeline.name
      priority := (s.pipeline.priority % (2 ^ 64 : Int)).toNat
      driver := s.pipeline.driver
      queue := s.subject
      ready := ready s.listeners
      active := 0
      reserved := 0
      delayed := 0 }
  match s.sub with
  | none => .ok st
  | some _ =>
      match ciRes with
      | .error e => .error e
      | .ok none => .ok st
      | .ok (some ci) =>
          .ok { st with
                  active := (ci.numAckPending : Int)
                  reserved := (ci.numWaiting : Int)
                  delayed := 0 }

/-- Driver error at the roadrunner errors boundary: `errors.E(op, err)` wraps
an underlying message with an operation tag.  Two errors are "the same
error" when their underlying messages agree; the op tag names the failing
operation. -/
structure DriverErr where
  op : String
  msg : String
deriving DecidableEq, Repr

/-- Message of the unsupported-feature error shared verbatim by Push and
requeue in the source. -/
def unsupportedMsg : String :=
  "nats doesn't support delayed messages, see: https://github.com/nats-io/nats-streaming-server/issues/324"

/-- Effect state of the JetStream context: the list of (subject, data)
publishes performed and the list of (stream, sequence) DeleteMsg attempts
made, each in order. -/
structure JsState where
  published : List (String × String)
  deleteAttempts : List (String × Nat)
deriving DecidableEq, Repr

/-- Job at the jobs.Job interface boundary: Push only reads job.Delay() and
hands the job to json.Marshal, whose outcome enters as a parameter. -/
structure Job where
  delay : Int
deriving DecidableEq, Repr

/-- Embedding of Driver.Push (src/natsjobs/unpack.go).  `marshal` is the
outcome of the external `json.Marshal(job)`; `publishErr` the outcome of
`c.js.Publish(c.subject, data)` (none = success).  Delay > 0 is rejected
with the unsupported-feature error before marshalling or publishing; a
marshal or publish error is returned wrapped with the op tag and nothing is
published. -/
def Push (subject : String) (js : JsState) (job : Job)
    (marshal : Except String String) (publishErr : Option String) :
    Except DriverErr Unit × JsState :=
  if job.delay > 0 then
    (.error { op := "nats_consumer_push", msg := unsupportedMsg }, js)
  else
    match marshal with
    | .error e => (.error { op := "nats_consumer_push", msg := e }, js)
    | .ok data =>
        match publishErr with
        | some e => (.error { op := "nats_consumer_push", msg := e }, js)
        | none => (.ok (), { js with published := js.published ++ [(subject, data)] })

/-- Embedding of Driver.requeue (src/natsjobs/unpack.go).  The Go code
dereferences item.Options unconditionally, so a nil options pointer is a
panic, modelled as `none`.  Delay > 0 is rejected with the same
unsupported-feature message as Push, wrapped with the op "nats_requeue",
before marshalling or publishing.  Otherwise the item is re-serialised
(`marshal`, the outcome of json.Marshal(item)) and republished; a marshal or
publish error is returned and no deletion is attempted.  On publish success
`c.js.DeleteMsg(c.stream, item.Options.seq)` is attempted and its result is
discarded (`deleteErr` is ignored), and requeue returns success. -/
def requeue (subject stream : String) (js : JsState) (item : Item)
    (marshal : Except String String) (publishErr : Option String)
    (_deleteErr : Option String) :
    Option (Except DriverErr Unit × JsState) :=
  match item.options with
  | none => none
  | some o =>
      if o.delay > 0 then
        some (.error { op := "nats_requeue", msg := unsupportedMsg }, js)
      else
        match marshal with
        | .error e => some (.error { op := "nats_requeue", msg := e }, js)
        | .ok data =>
            match publishErr with
            | some e => some (.error { op := "nats_requeue", msg := e }, js)
            | none =>
                some (.ok (),
                  { js with
                      published := js.published ++ [(subject, data)]
                      deleteAttempts := js.deleteAttempts ++ [(stream, o.seq)] })

/-- Config struct from src/natsjobs/config.go, with Go zero values where a
section leaves a field unset. -/
structure GoConfig where
  addr : String
  token : String
  user : String
  password : String
  name : String
  consumeAll : Bool
  priority : Int
  subject : String
  stream : String
  prefetch : Int
  rateLimit : Nat
  deleteAfterAck : Bool
  deliverNew : Bool
  deliverLast : Bool
  deleteStreamOnStop : Bool
  durable : String
deriving DecidableEq, Repr

/-- Go zero value of the config struct. -/
def zeroConfig : GoConfig :=
  { addr := "", token := "", user := "", password := "", name := ""
    consumeAll := false, priority := 0, subject := "", stream := ""
    prefetch := 0, rateLimit := 0, deleteAfterAck := false
    deliverNew := false, deliverLast := false, deleteStreamOnStop := false
    durable := "" }

/-- One named configuration section as the Configurer sees it: for each
mapstructure key of the config struct, either a value present in the section
or absence. -/
structure ConfigSection where
  addr : Option String
  token : Option String
  user : Option String
  password : Option String
  name : Option String
  consumeAll : Option Bool
  priority : Option Int
  subject : Option String
  stream : Option String
  prefetch : Option Int
  rateLimit : Option Nat
  deleteAfterAck : Option Bool
  deliverNew : Option Bool
  deliverLast : Option Bool
  deleteStreamOnStop : Option Bool
  durable : Option String
deriving DecidableEq, Repr

/-- Section with no keys present. -/
def emptySection : ConfigSection :=
  { addr := none, token := none, user := none, password := none, name := none
    consumeAll := none, priority := none, subject := none, stream := none
    prefetch := none, rateLimit := none, deleteAfterAck := none
    deliverNew := none, deliverLast := none, deleteStreamOnStop := none
    durable := none }

/-- Embedding of cfg.UnmarshalKey(section, &conf) at the Configurer interface
boundary (spec §6), with the mapstructure decoding semantics of the
roadrunner config plugin: every key present in the section overwrites the
corresponding field of the target struct, keys absent from the section leave
the target field untouched. -/
def unmarshalKeyApply (sec : ConfigSection) (c : GoConfig) : GoConfig :=
  { addr := sec.addr.getD c.addr
    token := sec.token.getD c.token
    user := sec.user.getD c.user
    password := sec.password.getD c.password
    name := sec.name.getD c.name
    consumeAll := sec.consumeAll.getD c.consumeAll
    priority := sec.priority.getD c.priority
    subject := sec.subject.getD c.subject
    stream := sec.stream.getD c.stream
    prefetch := sec.prefetch.getD c.prefetch
    rateLimit := sec.rateLimit.getD c.rateLimit
    deleteAfterAck := sec.deleteAfterAck.getD c.deleteAfterAck
    deliverNew := sec.deliverNew.getD c.deliverNew
    deliverLast := sec.deliverLast.getD c.deliverLast
    deleteStreamOnStop := sec.deleteStreamOnStop.getD c.deleteStreamOnStop
    durable := sec.durable.getD c.durable }

/-- Embedding of config.InitDefaults (src/natsjobs/config.go): each listed
field is replaced by its hard-coded fallback exactly when it still holds its
Go zero value.  nats.DefaultURL is "nats://127.0.0.1:4222". -/
def InitDefaults (c : GoConfig) : GoConfig :=
  let c := if c.addr = "" then { c with addr := "nats://127.0.0.1:4222" } else c
  let c := if c.rateLimit = 0 then { c with rateLimit := 1000 } else c
  let c := if c.priority = 0 then { c with priority := 10 } else c
  let c := if c.stream = "" then { c with stream := "default-stream" } else c
  let c := if c.subject = "" then { c with subject := "default" } else c
  let c := if c.prefetch = 0 then { c with prefetch := 10 } else c
  c

/-- Merge performed by FromConfig before defaults (src/natsjobs/unpack.go):
`cfg.UnmarshalKey(configKey, &conf)` followed by
`cfg.UnmarshalKey(pluginName, &conf)` into the same struct — the named key's
section first, the global section second. -/
def mergedConf (keySec globalSec : ConfigSection) : GoConfig :=
  unmarshalKeyApply globalSec (unmarshalKeyApply keySec zeroConfig)

/-- Configuration computed by FromConfig: the two unmarshals, then
conf.InitDefaults(). -/
def fromConfigConf (keySec globalSec : ConfigSection) : GoConfig :=
  InitDefaults (mergedConf keySec globalSec)

/-- Immutable Driver configuration snapshot: the config fields FromConfig and
FromPipeline copy into the Driver struct. -/
structure DriverCfg where
  priority : Int
  subject : String
  stream : String
  consumeAll : Bool
  deleteAfterAck : Bool
  deleteStreamOnStop : Bool
  prefetch : Int
  deliverNew : Bool
  deliverLast : Bool
  rateLimit : Nat
  durable : String
deriving DecidableEq, Repr

/-- Driver snapshot built by FromConfig (src/natsjobs/unpack.go): each field
copied from the merged-and-defaulted conf. -/
def fromConfigDriverCfg (keySec globalSec : ConfigSection) : DriverCfg :=
  let conf := fromConfigConf keySec globalSec
  { priority := conf.priority
    subject := conf.subject
    stream := conf.stream
    consumeAll := conf.consumeAll
    deleteAfterAck := conf.deleteAfterAck
    deleteStreamOnStop := conf.deleteStreamOnStop
    prefetch := conf.prefetch
    deliverNew := conf.deliverNew
    deliverLast := conf.deliverLast
    rateLimit := conf.rateLimit
    durable := conf.durable }

/-- Driver snapshot built by FromPipeline (src/natsjobs/unpack.go).  The
global section's conf (unmarshalled and defaulted, used in the source only
for nats.Connect options) is in scope as `conf` but the snapshot fields are
read from the pipeline's options with hard-coded per-field defaults;
rate_limit goes through the Go conversion uint64(pipe.Int(...)) (reduction
modulo 2^64). -/
def fromPipelineDriverCfg (conf : GoConfig) (pipe : Pipeline) : DriverCfg :=
  let _ := conf
  { priority := pipe.priority
    consumeAll := pipe.bool "consume_all" false
    subject := pipe.str "subject" "default"
    stream := pipe.str "stream" "default-stream"
    prefetch := pipe.int "prefetch" 100
    deleteAfterAck := pipe.bool "delete_after_ack" false
    deliverNew := pipe.bool "deliver_new" false
    deliverLast := pipe.bool "deliver_last" false
    deleteStreamOnStop := pipe.bool "delete_stream_on_stop" false
    rateLimit := ((pipe.int "rate_limit" 1000) % (2 ^ 64 : Int)).toNat
    durable := pipe.str "durable" "" }

/-! Concrete instances used by counterexamples and witnesses. -/

/-- Item produced by unpack in consume-all mode on msg0/meta37. -/
def rawItem37 : Item :=
  { job := auto, ident := "3:7", payload := msg0.data, headers := msg0.header
    options := some { priority := 10, pipeline := auto, delay := 0, seq := 0 } }

/-- Empty JetStream effect state. -/
def js0 : JsState := { published := [], deleteAttempts := [] }

/-- Item carrying a positive delay in its options. -/
def delayedItem : Item :=
  { job := "j", ident := "id-1", payload := "p", headers := []
    options := some { priority := 10, pipeline := "pipe-1", delay := 3, seq := 12 } }

/-- Item carrying zero delay and a recorded sequence token 12. -/
def zeroDelayItem : Item :=
  { job := "j", ident := "id-1", payload := "p", headers := []
    options := some { priority := 10, pipeline := "pipe-1", delay := 0, seq := 12 } }

/-- Concrete pipeline binding. -/
def pipe0 : Pipeline :=
  { name := "pipe-1", driver := "nats", priority := 10
    stringOpts := [], boolOpts := [], intOpts := [] }

/-- Idle driver state: no listener, no subscription, bound to pipe0. -/
def idleState : DriverState :=
  { listeners := 0, sub := none, pipeline := pipe0, subject := "default" }

/-- Active driver state: one listener and a live subscription handle. -/
def activeState : DriverState :=
  { listeners := 1, sub := some 1, pipeline := pipe0, subject := "default" }

/-- Report State produces on idleState when no subscription is consulted. -/
def idleReport : JobsState :=
  { pipeline := "pipe-1", priority := 10, driver := "nats", queue := "default"
    ready := false, active := 0, reserved := 0, delayed := 0 }

/-- Ordering predicate on an event trace: the listenerInit call and the
worker start both occur strictly before the counter increment. -/
abbrev initStartBeforeIncr (tr : List Event) : Prop :=
  tr.indexOf Event.listenerInitCall < tr.indexOf Event.counterIncr ∧
  tr.indexOf Event.workerStart < tr.indexOf Event.counterIncr

/-- Formalisation of the C3 claim at one Idle-or-Paused-to-Active
transition: with a matching pipeline name and listener counter 0 and a
successful listener setup, both Run and Resume perform the subscription
setup and the worker start before incrementing the listener counter. -/
abbrev runResumeInitOrderClaim (s : DriverState) (p : Pipeline) (h : Nat) : Prop :=
  s.pipeline.name = p.name → s.listeners = 0 →
    initStartBeforeIncr (Run s p (.ok h)).2.2 ∧
    initStartBeforeIncr (Resume s p.name (.ok h)).2.2

/-- Key-specific section setting priority 7 and subject "key-subj". -/
def keySec8 : ConfigSection :=
  { emptySection with priority := some 7, subject := some "key-subj" }

/-- Global section setting an address, priority 5, subject "global-subj" and
prefetch 50. -/
def globalSec8 : ConfigSection :=
  { emptySection with
    addr := some "nats://10.0.0.1:4222"
    priority := some 5
    subject := some "global-subj"
    prefetch := some 50 }

/-- Global configuration as FromPipeline computes it from globalSec8:
unmarshalled from the global section alone, then defaulted. -/
def conf8 : GoConfig :=
  InitDefaults (unmarshalKeyApply globalSec8 zeroConfig)

/-! Theorems settling the claims. -/

/-- C7: for every raw consume-all message, unpack returns an Item whose
identity is "consumerSeq:streamSeq" (so consumer sequence 3 and stream
sequence 7 yield "3:7"), whose job name is the sentinel, whose payload is
the raw message body, whose headers are copied verbatim, and whose options
carry priority 10 and the sentinel pipeline name, regardless of payload
content. -/
theorem C7_unpack_raw_fields (decode : String → Except String Item)
    (m : Msg) (meta : MsgMetadata) :
    ∀ i, unpack true decode m meta = .ok i →
      i.ident = toString meta.consumerSeq ++ ":" ++ toString meta.streamSeq ∧
      i.job = auto ∧
      i.payload = m.data ∧
      i.headers = m.header ∧
      i.options.map Options.priority = some 10 ∧
      i.options.map Options.pipeline = some auto ∧
      (meta.consumerSeq = 3 → meta.streamSeq = 7 → i.ident = "3:7") := by
  intro i h
  simp only [unpack, if_true, Except.ok.injEq] at h
  subst h
  refine ⟨rfl, rfl, rfl, rfl, rfl, rfl, fun h3 h7 => ?_⟩
  simp only [h3, h7]
  decide

/-- C7 witness: unpack on the concrete message msg0 with consumer sequence 3
and stream sequence 7 yields identity "3:7" and job name auto. -/
theorem C7_unpack_raw_fields_witness :
    rawItem37.ident = "3:7" ∧ rawItem37.job = auto := by
  have h := C7_unpack_raw_fields decodeUnused msg0 meta37 rawItem37 rfl
  exact ⟨h.2.2.2.2.2.2 rfl rfl, h.2.1⟩

/-- C2 counterexample: on the consumed message msg0 with stream sequence 7,
consume-all unpack returns an Item whose options carry seq 0 — the stream
sequence token is not populated from the message, refuting the claimed
invariant at this input. -/
theorem C2_unpack_invariant_counterexample :
    ¬ unpackInvariant true decodeUnused msg0 meta37 := by
  intro h
  obtain ⟨o, ho, hseq⟩ := h rawItem37 rfl
  have : o = { priority := 10, pipeline := auto, delay := 0, seq := 0 } :=
    (Option.some.inj ho).symm
  subst this
  simp [meta37] at hseq

/-- C2 (amended): every Item returned by unpack in raw consume-all mode has
non-nil options (priority 10, sentinel pipeline, and the zero value 0 in the
seq field — unpack itself never populates the stream-sequence token, the
sequences appear only in the identity string); in structured-decode mode the
result, options included, is exactly whatever the external decoding of the
message body produced. -/
theorem C2_unpack_options_amended (decode : String → Except String Item)
    (m : Msg) (meta : MsgMetadata) :
    (∀ i, unpack true decode m meta = .ok i →
        i.options = some { priority := 10, pipeline := auto, delay := 0, seq := 0 }) ∧
    unpack false decode m meta = decode m.data := by
  refine ⟨fun i h => ?_, rfl⟩
  simp only [unpack, if_true, Except.ok.injEq] at h
  subst h
  rfl

/-- C2 witness: the amended statement applied at the concrete consume-all
input msg0/meta37. -/
theorem C2_unpack_options_amended_witness :
    rawItem37.options = some { priority := 10, pipeline := auto, delay := 0, seq := 0 } :=
  (C2_unpack_options_amended decodeUnused msg0 meta37).1 rawItem37 rfl

/-- C1: for every job with delay > 0, Push returns the unsupported-feature
error without serializing or publishing anything (the outcome and effect
state are the same for every marshal and publish outcome, and the effect
state is returned unchanged), and for every Item with options delay > 0,
requeue returns the same unsupported-feature error (same underlying message,
wrapped with its own op tag) without publishing or deleting anything. -/
theorem C1_delay_rejected (subject stream : String) (js : JsState) (job : Job)
    (item : Item) (o : Options)
    (marshalJob marshalItem : Except String String)
    (pubErr pubErr2 delErr : Option String)
    (hjob : job.delay > 0) (hopt : item.options = some o) (hdelay : o.delay > 0) :
    Push subject js job marshalJob pubErr =
      (.error { op := "nats_consumer_push", msg := unsupportedMsg }, js) ∧
    requeue subject stream js item marshalItem pubErr2 delErr =
      some (.error { op := "nats_requeue", msg := unsupportedMsg }, js) := by
  constructor
  · simp [Push, hjob]
  · simp [requeue, hopt, hdelay]

/-- C1 witness: Push of a job with delay 5 and requeue of an Item with
options delay 3 both rejected at concrete inputs, with the empty effect
state returned untouched. -/
theorem C1_delay_rejected_witness :
    Push "default" js0 { delay := 5 } (.ok "d") none =
      (.error { op := "nats_consumer_push", msg := unsupportedMsg }, js0) ∧
    requeue "default" "default-stream" js0 delayedItem (.ok "d") none none =
      some (.error { op := "nats_requeue", msg := unsupportedMsg }, js0) :=
  C1_delay_rejected "default" "default-stream" js0 { delay := 5 } delayedItem
    { priority := 10, pipeline := "pipe-1", delay := 3, seq := 12 }
    (.ok "d") (.ok "d") none none none (by decide) rfl (by decide)

/-- C9: for every Item with options delay = 0, requeue serializes and
republishes the Item to the configured subject and then attempts to delete
the original message by its recorded sequence token, returning success
regardless of the deletion outcome; a publish failure is returned to the
caller with no publish recorded and no deletion attempted, and a
serialization failure likewise. -/
theorem C9_requeue_zero_delay (subject stream : String) (js : JsState)
    (item : Item) (o : Options) (data e : String)
    (delErr delErr2 delErr3 : Option String)
    (hopt : item.options = some o) (hdelay : o.delay = 0) :
    requeue subject stream js item (.ok data) none delErr =
      some (.ok (), { js with
        published := js.published ++ [(subject, data)]
        deleteAttempts := js.deleteAttempts ++ [(stream, o.seq)] }) ∧
    requeue subject stream js item (.ok data) (some e) delErr2 =
      some (.error { op := "nats_requeue", msg := e }, js) ∧
    requeue subject stream js item (.error e) none delErr3 =
      some (.error { op := "nats_requeue", msg := e }, js) := by
  refine ⟨?_, ?_, ?_⟩ <;> simp [requeue, hopt, hdelay]

/-- C9 witness: requeue of a zero-delay Item with recorded token 12 at
concrete inputs — publish success appends the publish and the delete
attempt, publish failure is propagated with no effects. -/
theorem C9_requeue_zero_delay_witness :
    requeue "default" "default-stream" js0 zeroDelayItem (.ok "d") none (some "delete failed") =
      some (.ok (), { js0 with
        published := [("default", "d")]
        deleteAttempts := [("default-stream", 12)] }) ∧
    requeue "default" "default-stream" js0 zeroDelayItem (.ok "d") (some "boom") none =
      some (.error { op := "nats_requeue", msg := "boom" }, js0) ∧
    requeue "default" "default-stream" js0 zeroDelayItem (.error "boom") none none =
      some (.error { op := "nats_requeue", msg := "boom" }, js0) :=
  C9_requeue_zero_delay "default" "default-stream" js0 zeroDelayItem
    { priority := 10, pipeline := "pipe-1", delay := 0, seq := 12 }
    "d" "boom" (some "delete failed") none none rfl rfl

/-- C3 counterexample: on the idle driver bound to pipe0, Run with a
successful listener setup produces the trace
[counterIncr, listenerInitCall, workerStart] — the counter increment comes
first, so the claimed ordering fails for Run at this concrete input. -/
theorem C3_init_order_counterexample :
    ¬ runResumeInitOrderClaim idleState pipe0 1 := by decide

/-- C3 (amended): in the Idle-or-Paused-to-Active transition (matching
pipeline name, listener counter 0, successful listener setup), Resume
performs the subscription setup and starts the worker before incrementing
the listener counter, whereas Run increments the counter first and only then
performs the setup and starts the worker. -/
theorem C3_init_order_amended (s : DriverState) (p : Pipeline) (h : Nat)
    (hname : s.pipeline.name = p.name) (hl : s.listeners = 0) :
    initStartBeforeIncr (Resume s p.name (.ok h)).2.2 ∧
    (Run s p (.ok h)).2.2 = [.counterIncr, .listenerInitCall, .workerStart] ∧
    (Resume s p.name (.ok h)).2.2 = [.listenerInitCall, .workerStart, .counterIncr] := by
  have hr : (Run s p (.ok h)).2.2 = [.counterIncr, .listenerInitCall, .workerStart] := by
    simp [Run, hname, hl]
  have hs : (Resume s p.name (.ok h)).2.2 = [.listenerInitCall, .workerStart, .counterIncr] := by
    simp [Resume, hname, hl]
  refine ⟨?_, hr, hs⟩
  rw [hs]
  decide

/-- C3 witness: the amended ordering at the concrete idle driver. -/
theorem C3_init_order_amended_witness :
    initStartBeforeIncr (Resume idleState pipe0.name (.ok 1)).2.2 ∧
    (Run idleState pipe0 (.ok 1)).2.2 = [.counterIncr, .listenerInitCall, .workerStart] ∧
    (Resume idleState pipe0.name (.ok 1)).2.2 = [.listenerInitCall, .workerStart, .counterIncr] :=
  C3_init_order_amended idleState pipe0 1 rfl rfl

/-- C4: with the listener counter at 1 and a matching pipeline name, Run
returns success with the state unchanged and an empty trace (no listenerInit
call, no new subscription), for every possible listener-setup outcome, while
Resume returns the already-active error, also with nothing changed. -/
theorem C4_already_active (s : DriverState) (p : Pipeline)
    (initRes initRes2 : Except String Nat)
    (hname : s.pipeline.name = p.name) (hl : s.listeners = 1) :
    Run s p initRes = (.ok (), s, []) ∧
    Resume s p.name initRes2 =
      (.error "nats listener is already in the active state", s, []) := by
  constructor
  · simp [Run, hname, hl]
  · simp [Resume, hname, hl]

/-- C4 witness: Run and Resume on the concrete active driver. -/
theorem C4_already_active_witness :
    Run activeState pipe0 (.ok 2) = (.ok (), activeState, []) ∧
    Resume activeState pipe0.name (.error "e") =
      (.error "nats listener is already in the active state", activeState, []) :=
  C4_already_active activeState pipe0 (.ok 2) (.error "e") rfl rfl

/-- C5: for every call to Pause with a matching pipeline name while the
listener counter is 0, Pause returns the no-listener error with the driver
state (counter, subscription handle and all) returned unchanged and no
effectful step taken. -/
theorem C5_pause_idle (s : DriverState) (p : String)
    (hname : s.pipeline.name = p) (hl : s.listeners = 0) :
    Pause s p = (.error "no active listeners, nothing to pause", s, []) := by
  simp [Pause, hname, hl]

/-- C5 witness: Pause on the concrete idle driver. -/
theorem C5_pause_idle_witness :
    Pause idleState "pipe-1" = (.error "no active listeners, nothing to pause", idleState, []) :=
  C5_pause_idle idleState "pipe-1" rfl rfl

/-- C6: every report State returns has Ready true exactly when the listener
counter is positive, whatever the consumer-info query outcome; and when the
subscription handle is non-nil and the query fails, State propagates that
failure to the caller. -/
theorem C6_state_ready (s : DriverState) (ciRes : Except String (Option ConsumerInfo)) :
    (∀ st, State s ciRes = .ok st → (st.ready = true ↔ 0 < s.listeners)) ∧
    (∀ hh e, s.sub = some hh → ciRes = .error e → State s ciRes = .error e) := by
  constructor
  · intro st hst
    have hready : st.ready = ready s.listeners := by
      unfold State at hst
      cases hsub : s.sub with
      | none =>
        rw [hsub] at hst
        injection hst with h
        rw [← h]
      | some v =>
        rw [hsub] at hst
        cases ciRes with
        | error e => exact absurd hst (by simp)
        | ok ci =>
          cases ci with
          | none =>
            injection hst with h
            rw [← h]
          | some c =>
            injection hst with h
            rw [← h]
    rw [hready]
    simp [ready]
  · intro hh e hsub herr
    subst herr
    simp [State, hsub]

/-- C6 witness: on the idle driver (no subscription) the report is returned
with Ready false and counter 0, and on the active driver with a live
subscription a failing consumer-info query is propagated. -/
theorem C6_state_ready_witness :
    ((idleReport.ready = true) ↔ (0 < idleState.listeners)) ∧
    State activeState (.error "boom") = .error "boom" :=
  ⟨(C6_state_ready idleState (.ok none)).1 idleReport rfl,
   (C6_state_ready activeState (.error "boom")).2 1 "boom" rfl rfl⟩

/-- C10: when listener setup fails inside Run after the name and counter
checks pass on an idle driver, Run returns the error but the listener
counter is left at 1; consequently a subsequent Run returns success with no
state change and an empty trace (no subscription created), and State on that
state reports Ready true for every consumer-info outcome. -/
theorem C10_run_counter_leak (s : DriverState) (p : Pipeline) (e : String)
    (initRes2 : Except String Nat) (ciRes : Except String (Option ConsumerInfo))
    (hname : s.pipeline.name = p.name) (hl : s.listeners = 0) (hsub : s.sub = none) :
    (Run s p (.error e)).1 = .error e ∧
    ((Run s p (.error e)).2.1).listeners = 1 ∧
    Run ((Run s p (.error e)).2.1) p initRes2 = (.ok (), (Run s p (.error e)).2.1, []) ∧
    (State ((Run s p (.error e)).2.1) ciRes).map JobsState.ready = .ok true := by
  rcases s with ⟨l, sub, pl, subj⟩
  simp only at hname hl hsub
  subst hl
  subst hsub
  have hrun : Run ⟨0, none, pl, subj⟩ p (.error e) =
      (.error e, ⟨1, none, pl, subj⟩, [.counterIncr, .listenerInitCall]) := by
    simp [Run, hname]
  refine ⟨by rw [hrun], by rw [hrun], ?_, ?_⟩
  · rw [hrun]
    simp [Run, hname]
  · rw [hrun]
    simp [State, ready, Except.map]

/-- C10 witness: the leak at the concrete idle driver with a failing setup. -/
theorem C10_run_counter_leak_witness :
    (Run idleState pipe0 (.error "boom")).1 = .error "boom" ∧
    ((Run idleState pipe0 (.error "boom")).2.1).listeners = 1 ∧
    Run ((Run idleState pipe0 (.error "boom")).2.1) pipe0 (.ok 2) =
      (.ok (), (Run idleState pipe0 (.error "boom")).2.1, []) ∧
    (State ((Run idleState pipe0 (.error "boom")).2.1) (.ok none)).map JobsState.ready = .ok true :=
  C10_run_counter_leak idleState pipe0 "boom" (.ok 2) (.ok none) rfl rfl rfl

/-- C8 counterexample: with priority 7 and subject "key-subj" in the
key-specific section and priority 5 and subject "global-subj" in the global
section, the FromConfig snapshot holds the GLOBAL values 5 and "global-subj",
not the key-specific ones the claim requires; and in the FromPipeline path a
prefetch of 50 set only in the global section is ignored — the snapshot gets
the hard-coded fallback 100 even though the claimed merge would leave the
field at the nonzero value 50. -/
theorem C8_merge_counterexample :
    (fromConfigDriverCfg keySec8 globalSec8).priority = 5 ∧ (5 : Int) ≠ 7 ∧
    (fromConfigDriverCfg keySec8 globalSec8).subject = "global-subj" ∧
    "global-subj" ≠ "key-subj" ∧
    (fromPipelineDriverCfg conf8 pipe0).prefetch = 100 ∧
    conf8.prefetch = 50 ∧ (100 : Int) ≠ 50 := by
  decide

/-- C8 (amended): in FromConfig the global section is unmarshalled last, so
every field present in both sections ends up with the GLOBAL section's
value, a field present only in the key-specific section keeps the
key-specific value, and the hard-coded fallback defaults are applied only to
fields still zero-valued after the two unmarshals (the non-defaulted fields
pass through InitDefaults untouched); in FromPipeline the snapshot fields
are read from the pipeline's options with hard-coded per-field defaults and
do not depend on the merged global configuration. -/
theorem C8_merge_amended (k g : ConfigSection) (c : GoConfig)
    (conf conf2 : GoConfig) (pipe : Pipeline) :
    (∀ v, g.priority = some v → (mergedConf k g).priority = v) ∧
    (∀ v, g.subject = some v → (mergedConf k g).subject = v) ∧
    (∀ v, g.stream = some v → (mergedConf k g).stream = v) ∧
    (∀ v, g.prefetch = some v → (mergedConf k g).prefetch = v) ∧
    (∀ v, g.rateLimit = some v → (mergedConf k g).rateLimit = v) ∧
    (∀ v, g.consumeAll = some v → (mergedConf k g).consumeAll = v) ∧
    (∀ v, g.deleteAfterAck = some v → (mergedConf k g).deleteAfterAck = v) ∧
    (∀ v, g.deliverNew = some v → (mergedConf k g).deliverNew = v) ∧
    (∀ v, g.deliverLast = some v → (mergedConf k g).deliverLast = v) ∧
    (∀ v, g.deleteStreamOnStop = some v → (mergedConf k g).deleteStreamOnStop = v) ∧
    (∀ v, g.durable = some v → (mergedConf k g).durable = v) ∧
    (g.priority = none → ∀ v, k.priority = some v → (mergedConf k g).priority = v) ∧
    ((InitDefaults c).addr = if c.addr = "" then "nats://127.0.0.1:4222" else c.addr) ∧
    ((InitDefaults c).rateLimit = if c.rateLimit = 0 then 1000 else c.rateLimit) ∧
    ((InitDefaults c).priority = if c.priority = 0 then 10 else c.priority) ∧
    ((InitDefaults c).stream = if c.stream = "" then "default-stream" else c.stream) ∧
    ((InitDefaults c).subject = if c.subject = "" then "default" else c.subject) ∧
    ((InitDefaults c).prefetch = if c.prefetch = 0 then 10 else c.prefetch) ∧
    ((InitDefaults c).consumeAll = c.consumeAll) ∧
    ((InitDefaults c).deleteAfterAck = c.deleteAfterAck) ∧
    ((InitDefaults c).deliverNew = c.deliverNew) ∧
    ((InitDefaults c).deliverLast = c.deliverLast) ∧
    ((InitDefaults c).deleteStreamOnStop = c.deleteStreamOnStop) ∧
    ((InitDefaults c).durable = c.durable) ∧
    fromPipelineDriverCfg conf pipe = fromPipelineDriverCfg conf2 pipe := by
  have hchar : ∀ cc : GoConfig, InitDefaults cc = { cc with
      addr := if cc.addr = "" then "nats://127.0.0.1:4222" else cc.addr
      rateLimit := if cc.rateLimit = 0 then 1000 else cc.rateLimit
      priority := if cc.priority = 0 then 10 else cc.priority
      stream := if cc.stream = "" then "default-stream" else cc.stream
      subject := if cc.subject = "" then "default" else cc.subject
      prefetch := if cc.prefetch = 0 then 10 else cc.prefetch } := by
    intro cc
    rcases cc with ⟨a, t, u, pw, n, ca, pr, su, st, pf, rl, daa, dn, dl, dsos, du⟩
    by_cases h1 : a = "" <;> by_cases h2 : rl = 0 <;> by_cases h3 : pr = 0 <;>
      by_cases h4 : st = "" <;> by_cases h5 : su = "" <;> by_cases h6 : pf = 0 <;>
      simp [InitDefaults, h1, h2, h3, h4, h5, h6]
  refine ⟨?_, ?_, ?_, ?_, ?_, ?_, ?_, ?_, ?_, ?_, ?_, ?_, ?_, ?_, ?_, ?_, ?_, ?_,
    ?_, ?_, ?_, ?_, ?_, ?_, rfl⟩ <;>
  first
  | (intro hg v hv
     simp [mergedConf, unmarshalKeyApply, hg, hv])
  | (intro v hv
     simp [mergedConf, unmarshalKeyApply, hv])
  | rw [hchar]

/-- C8 witness: the amended precedence at the concrete sections keySec8 and
globalSec8 (both set priority; the merged value is the global 5) and the
defaults on the zero config (priority defaulted to 10). -/
theorem C8_merge_amended_witness :
    (mergedConf keySec8 globalSec8).priority = 5 ∧
    (InitDefaults zeroConfig).priority = (if zeroConfig.priority = 0 then 10 else zeroConfig.priority) ∧
    fromPipelineDriverCfg conf8 pipe0 = fromPipelineDriverCfg zeroConfig pipe0 := by
  obtain ⟨h1, _, _, _, _, _, _, _, _, _, _, _, _, _, h15, _, _, _, _, _, _, _, _, _, h25⟩ :=
    C8_merge_amended keySec8 globalSec8 zeroConfig conf8 zeroConfig pipe0
  exact ⟨h1 5 rfl, h15, h25⟩

end Natsjobs
